import Mathlib

/-!
Verification of the Python LLM scraper pipeline
(`src/scrapers/python/scraper_cli.py` together with
`src/scrapers/python/config.py`) of the robotaxi-plate-scraper repository.

The pipeline fetches candidate posts, classifies each one with an LLM,
filters the accepted ones and maps them to the external `ScrapedPost`
JSON schema.  The embedding below translates the relevant Python code
into Lean definitions: the Python string primitives used by the code
(`str.replace` with empty replacement, `str.rstrip("Z")`,
`str.split('/')`, `list.index`, truthiness coalescing with `or`) are
modelled on `List Char` / `String`, exceptions are modelled with
`Except String`, and the per-item `try/except` loop is modelled as a
fold whose body returns `Except String (Option ScrapedPost)`.
-/

/- ## Models of the Python string primitives used by scraper_cli.py -/

/-- Model of Python `s.replace(pat, "")` (delete every occurrence of
`pat`): scan left to right; on a match, skip the whole pattern and
continue after it (non-overlapping).  `skip` counts characters still to
be consumed from a match already found.  An empty pattern with empty
replacement leaves the string unchanged, as in Python. -/
def pyReplaceDelAux (pat : List Char) : Nat → List Char → List Char
  | _, [] => []
  | k + 1, _ :: cs => pyReplaceDelAux pat k cs
  | 0, c :: cs =>
    if pat ≠ [] ∧ pat.isPrefixOf (c :: cs) then
      pyReplaceDelAux pat (pat.length - 1) cs
    else
      c :: pyReplaceDelAux pat 0 cs

/-- Model of Python `s.replace(pat, "")` on character lists. -/
def pyReplaceDel (s pat : List Char) : List Char :=
  pyReplaceDelAux pat 0 s

/-- Model of Python `s.replace(pat, "")` on strings. -/
def pyStrReplaceDel (s pat : String) : String :=
  ⟨pyReplaceDel s.data pat.data⟩

/-- Model of Python `s.rstrip("Z")`: remove every trailing `'Z'`. -/
def pyRstrip (strip : Char) (l : List Char) : List Char :=
  (l.reverse.dropWhile (fun c => c = strip)).reverse

/-- Model of Python `s.rstrip("Z")` on strings. -/
def pyStrRstripZ (s : String) : String :=
  ⟨pyRstrip 'Z' s.data⟩

/-- Model of Python `s.split(sep)` for a one-character separator:
`"".split('/') = [""]`, empty segments between consecutive separators
are kept. -/
def pySplit (sep : Char) : List Char → List (List Char)
  | [] => [[]]
  | c :: cs =>
    let r := pySplit sep cs
    if c = sep then
      [] :: r
    else
      match r with
      | [] => [[c]]
      | p :: ps => (c :: p) :: ps

/-- Model of Python `parts.index(target)` (index of the first
occurrence).  In the source this is only called under an
`if target in parts` guard, so the out-of-range value returned on a
missing target is never observed. -/
def py_index (target : List Char) : List (List Char) → Nat
  | [] => 0
  | p :: ps => if p = target then 0 else py_index target ps + 1

/-- Model of Python `x or d` for an optional string `x`: `None` and the
empty string are falsy, so both select the default `d`. -/
def pyOrStr (x : Option String) (d : String) : String :=
  match x with
  | none => d
  | some s => if s = "" then d else s

/-- Model of the Python truthiness test `if subreddit:` guarding the
dictionary insertion: `None` and `""` both leave the key absent. -/
def py_truthy_opt (o : Option String) : Option String :=
  match o with
  | none => none
  | some s => if s = "" then none else some s

/-- Bool test for whether `pat` occurs as a contiguous substring
(used to state when `pyReplaceDel` leaves a string unchanged). -/
def hasSub (pat : List Char) : List Char → Bool
  | [] => decide (pat = [])
  | c :: cs => pat.isPrefixOf (c :: cs) || hasSub pat cs

/- ## Timestamps -/

/-- Modelled from the spec: `models.py` (the `SightingCandidate` model)
and the pollers are not under `src/`, so the type of
`timestamp_detected` is taken from §3 of the spec ("timestamp (UTC)"):
a naive UTC wall-clock datetime at second resolution, which is what the
formatter's `isoformat() + "Z"` serialization presupposes.  Sub-second
precision is omitted. -/
structure Datetime where
  year : Nat
  month : Nat
  day : Nat
  hour : Nat
  minute : Nat
  sec : Nat
deriving DecidableEq, Repr

/-- The character for the last decimal digit of `n`. -/
def digitChar (n : Nat) : Char :=
  Char.ofNat (48 + n % 10)

/-- Model of Python `datetime.isoformat()` on a naive datetime with
zero microseconds: `YYYY-MM-DDTHH:MM:SS`, zero padded. -/
def pyIsoformat (t : Datetime) : String :=
  ⟨[digitChar (t.year / 1000), digitChar (t.year / 100),
    digitChar (t.year / 10), digitChar t.year, '-',
    digitChar (t.month / 10), digitChar t.month, '-',
    digitChar (t.day / 10), digitChar t.day, 'T',
    digitChar (t.hour / 10), digitChar t.hour, ':',
    digitChar (t.minute / 10), digitChar t.minute, ':',
    digitChar (t.sec / 10), digitChar t.sec]⟩

/-- Gregorian leap year test, as validated by Python `datetime`. -/
def isLeapYear (y : Nat) : Bool :=
  (y % 4 == 0 && y % 100 != 0) || y % 400 == 0

/-- Days in a month, as validated by Python `datetime`. -/
def daysInMonth (y m : Nat) : Nat :=
  if m = 2 then (if isLeapYear y then 29 else 28)
  else if m = 4 ∨ m = 6 ∨ m = 9 ∨ m = 11 then 30
  else 31

/-- The numeric value of a decimal digit character, `none` otherwise. -/
def parseDigit (c : Char) : Option Nat :=
  if c.isDigit then some (c.toNat - 48) else none

/-- Two decimal digits. -/
def digits2 (a b : Char) : Option Nat :=
  match parseDigit a, parseDigit b with
  | some x, some y => some (10 * x + y)
  | _, _ => none

/-- Four decimal digits. -/
def digits4 (a b c d : Char) : Option Nat :=
  match parseDigit a, parseDigit b, parseDigit c, parseDigit d with
  | some x, some y, some z, some w => some (1000 * x + 100 * y + 10 * z + w)
  | _, _, _, _ => none

/-- Model of Python `datetime.fromisoformat`, restricted to the
`YYYY-MM-DDTHH:MM:SS` form that the `--since` values of this CLI take
after preprocessing; any other shape is a parse failure (`none`,
modelling the raised `ValueError`).  Field ranges are validated as
Python does (month 1–12, calendar day, hour/minute/second bounds,
year ≥ 1). -/
def fromisoformat (s : String) : Option Datetime :=
  match s.data with
  | [y1, y2, y3, y4, p1, m1, m2, p2, d1, d2, pT, h1, h2, p3, n1, n2, p4, e1, e2] =>
    if p1 = '-' ∧ p2 = '-' ∧ pT = 'T' ∧ p3 = ':' ∧ p4 = ':' then
      match digits4 y1 y2 y3 y4, digits2 m1 m2, digits2 d1 d2,
            digits2 h1 h2, digits2 n1 n2, digits2 e1 e2 with
      | some y, some mo, some d, some h, some mi, some se =>
        if 1 ≤ y ∧ 1 ≤ mo ∧ mo ≤ 12 ∧ 1 ≤ d ∧ d ≤ daysInMonth y mo ∧
            h ≤ 23 ∧ mi ≤ 59 ∧ se ≤ 59 then
          some ⟨y, mo, d, h, mi, se⟩
        else none
      | _, _, _, _, _, _ => none
    else none
  | _ => none

/- ## Configuration (config.py) -/

/-- The environment-derived configuration of `config.py`; a credential
that is not configured is the empty string (the `os.getenv` default),
which is falsy in the `not cls.OPENAI_API_KEY` style tests. -/
structure Config where
  OPENAI_API_KEY : String
  GOOGLE_API_KEY : String
  GOOGLE_CSE_ID : String
deriving DecidableEq, Repr

/-- `Config.validate` (config.py lines 79–85): raises `ValueError`
("OPENAI_API_KEY is required") when the OpenAI key is absent; the
Google keys are optional and not checked here. -/
def Config.validate (cfg : Config) : Except String Bool :=
  if cfg.OPENAI_API_KEY = "" then .error "OPENAI_API_KEY is required"
  else .ok true

/- ## Candidate data model -/

/-- Modelled from the spec: the `media` structure of `models.py`
(missing from `src/`) holding a single optional `image_url`, per §3
of the spec. -/
structure Media where
  image_url : Option String
deriving DecidableEq, Repr

/-- Modelled from the spec: `SightingCandidate` of `models.py`
(missing from `src/`), with exactly the fields §3 of the spec lists
and `scraper_cli.py` reads. -/
structure SightingCandidate where
  source_id : String
  source_url : String
  author_username : Option String
  title : Option String
  raw_text : String
  media : Media
  timestamp_detected : Datetime
deriving DecidableEq, Repr

/-- Modelled from the spec: the analyzed stage of a candidate
(§3, "AnalyzedCandidate = Candidate + classification results"), as
returned by `LLMAnalyzer.analyze` and consumed by the filter in
`scraper_cli.py`. -/
structure AnalyzedCandidate extends SightingCandidate where
  confidence_score : ℚ
  status : String
deriving DecidableEq, Repr

/-- The external `ScrapedPost` record built by
`candidate_to_scraped_post`; `subreddit = none` models the key being
absent from the emitted JSON object. -/
structure ScrapedPost where
  source : String
  sourceId : String
  sourceUrl : String
  authorUsername : String
  title : String
  text : String
  imageUrls : List String
  createdAt : String
  subreddit : Option String
deriving DecidableEq, Repr

/- ## Output formatter (scraper_cli.py lines 31–72) -/

/-- `parts.index('r')` then `parts[idx+1]`, guarded by
`'r' in parts` and the bounds test, as in scraper_cli.py lines 50–54. -/
def subreddit_of_parts (parts : List (List Char)) : Option (List Char) :=
  if ['r'] ∈ parts then
    let idx := py_index ['r'] parts
    if h : idx + 1 < parts.length then some (parts.get ⟨idx + 1, h⟩)
    else none
  else none

/-- `candidate_to_scraped_post` (scraper_cli.py lines 31–72):
the image list keeps the single truthy `image_url`; the subreddit is
parsed out of `source_url` only for the reddit source and inserted
only when truthy; `sourceId` is `source_id.replace(f"(source)_", "")`;
absent author/title fall back via Python `or`. -/
def candidate_to_scraped_post (candidate : AnalyzedCandidate) (source : String) : ScrapedPost :=
  let image_urls : List String :=
    match candidate.media.image_url with
    | some u => if u = "" then [] else [u]
    | none => []
  let subreddit : Option String :=
    if source = "reddit" ∧ candidate.source_url ≠ "" then
      match subreddit_of_parts (pySplit '/' candidate.source_url.data) with
      | some l => some ⟨l⟩
      | none => none
    else none
  { source := source
    sourceId := pyStrReplaceDel candidate.source_id (source ++ "_")
    sourceUrl := candidate.source_url
    authorUsername := pyOrStr candidate.author_username "unknown"
    title := pyOrStr candidate.title ""
    text := candidate.raw_text
    imageUrls := image_urls
    createdAt := pyIsoformat candidate.timestamp_detected ++ "Z"
    subreddit := py_truthy_opt subreddit }

/- ## Pipeline orchestration (scraper_cli.py lines 75–134) -/

/-- The acceptance test of the loop body (scraper_cli.py lines 95 and
127): `analyzed.confidence_score >= 0.5 and analyzed.status != "REJECTED"`. -/
def passes_filter (analyzed : AnalyzedCandidate) : Prop :=
  0.5 ≤ analyzed.confidence_score ∧ analyzed.status ≠ "REJECTED"

instance (analyzed : AnalyzedCandidate) : Decidable (passes_filter analyzed) := by
  unfold passes_filter
  exact inferInstance

/-- The body of the per-candidate `try` block (scraper_cli.py lines
92–97 and 124–129): classify, test the threshold, format.  Both the
classifier call and the formatter call are Python calls that can raise,
so both are modelled as `Except`-valued; `.error` is the exception
caught by the per-item `except`, `.ok none` is the not-accepted case,
`.ok (some p)` is the record to append. -/
def analyze_step (analyze : SightingCandidate → Except String AnalyzedCandidate)
    (fmt : AnalyzedCandidate → String → Except String ScrapedPost)
    (source : String) (candidate : SightingCandidate) :
    Except String (Option ScrapedPost) :=
  match analyze candidate with
  | .error e => .error e
  | .ok analyzed =>
    if passes_filter analyzed then
      match fmt analyzed source with
      | .error e => .error e
      | .ok scraped_post => .ok (some scraped_post)
    else .ok none

/-- The `for candidate in candidates: try ... except: continue` loop of
`scrape_reddit` / `scrape_x` (scraper_cli.py lines 90–102 and 122–134,
the two loops are verbatim copies): an exception anywhere in the body
skips the candidate, an accepted candidate's record is appended. -/
def scrape_loop (analyze : SightingCandidate → Except String AnalyzedCandidate)
    (fmt : AnalyzedCandidate → String → Except String ScrapedPost)
    (source : String) (candidates : List SightingCandidate) : List ScrapedPost :=
  candidates.foldl
    (fun scraped_posts candidate =>
      match analyze_step analyze fmt source candidate with
      | .ok (some scraped_post) => scraped_posts ++ [scraped_post]
      | .ok none => scraped_posts
      | .error _ => scraped_posts)
    []

/-- The actual formatter of the source, `candidate_to_scraped_post`,
lifted to the fallible call slot of the loop (on the embedded, well
typed candidate values it always returns normally). -/
def ok_formatter : AnalyzedCandidate → String → Except String ScrapedPost :=
  fun analyzed source => .ok (candidate_to_scraped_post analyzed source)

/-- `scrape_reddit` (scraper_cli.py lines 75–102).  The poller and
analyzer are external collaborators passed as fallible functions;
`Config.validate` errors and fetch errors propagate, per-item
classification errors are absorbed by `scrape_loop`. -/
def scrape_reddit (cfg : Config)
    (fetch_new_posts_since : Datetime → Except String (List SightingCandidate))
    (fetch_recent_posts : Nat → String → Except String (List SightingCandidate))
    (analyze : SightingCandidate → Except String AnalyzedCandidate)
    (since : Option Datetime) : Except String (List ScrapedPost) :=
  match cfg.validate with
  | .error e => .error e
  | .ok _ =>
    match (match since with
           | some t => fetch_new_posts_since t
           | none => fetch_recent_posts 50 "day") with
    | .error e => .error e
    | .ok candidates => .ok (scrape_loop analyze ok_formatter "reddit" candidates)

/-- `scrape_x` (scraper_cli.py lines 105–134): validates the required
configuration first, then short-circuits to an empty result when either
optional Google credential is absent (falsy). -/
def scrape_x (cfg : Config)
    (fetch_new_posts_since : Datetime → Except String (List SightingCandidate))
    (fetch_recent_posts : Nat → Except String (List SightingCandidate))
    (analyze : SightingCandidate → Except String AnalyzedCandidate)
    (since : Option Datetime) : Except String (List ScrapedPost) :=
  match cfg.validate with
  | .error e => .error e
  | .ok _ =>
    if cfg.GOOGLE_API_KEY = "" ∨ cfg.GOOGLE_CSE_ID = "" then .ok []
    else
      match (match since with
             | some t => fetch_new_posts_since t
             | none => fetch_recent_posts 10) with
      | .error e => .error e
      | .ok candidates => .ok (scrape_loop analyze ok_formatter "x" candidates)

/-- The `--since` handling of `main` (scraper_cli.py lines 145–152):
a falsy (absent or empty) argument, and any parse failure, leave
`since = None`; otherwise the value is preprocessed with
`rstrip("Z").replace("+00:00", "")` and parsed with `fromisoformat`
(the final `replace(tzinfo=UTC)` is the identity in this UTC model). -/
def parse_since (args_since : Option String) : Option Datetime :=
  match args_since with
  | none => none
  | some s =>
    if s = "" then none
    else fromisoformat (pyStrReplaceDel (pyStrRstripZ s) "+00:00")

/-- The process exit status of `main` (scraper_cli.py lines 154–168):
0 with the JSON array on success, 1 with the error object on failure. -/
def exit_code (result : Except String (List ScrapedPost)) : Nat :=
  match result with
  | .ok _ => 0
  | .error _ => 1

/- ## Lemmas about the orchestration loop -/

/-- The contribution of one candidate to the loop's output. -/
def step_opt (analyze : SightingCandidate → Except String AnalyzedCandidate)
    (fmt : AnalyzedCandidate → String → Except String ScrapedPost)
    (source : String) (candidate : SightingCandidate) : Option ScrapedPost :=
  match analyze_step analyze fmt source candidate with
  | .ok (some scraped_post) => some scraped_post
  | .ok none => none
  | .error _ => none

theorem scrape_loop_eq_filterMap (analyze : SightingCandidate → Except String AnalyzedCandidate)
    (fmt : AnalyzedCandidate → String → Except String ScrapedPost)
    (source : String) (candidates : List SightingCandidate) :
    scrape_loop analyze fmt source candidates =
      candidates.filterMap (step_opt analyze fmt source) := by
  suffices h : ∀ (cs : List SightingCandidate) (acc : List ScrapedPost),
      cs.foldl
        (fun scraped_posts candidate =>
          match analyze_step analyze fmt source candidate with
          | .ok (some scraped_post) => scraped_posts ++ [scraped_post]
          | .ok none => scraped_posts
          | .error _ => scraped_posts)
        acc = acc ++ cs.filterMap (step_opt analyze fmt source) by
    simpa [scrape_loop] using h candidates []
  intro cs
  induction cs with
  | nil => intro acc; simp
  | cons c cs ih =>
    intro acc
    simp only [List.foldl_cons, List.filterMap_cons, step_opt]
    cases h : analyze_step analyze fmt source c with
    | error e => simp [h, ih]
    | ok o => cases o <;> simp [h, ih]

theorem step_opt_eq_some (analyze : SightingCandidate → Except String AnalyzedCandidate)
    (fmt : AnalyzedCandidate → String → Except String ScrapedPost)
    (source : String) (candidate : SightingCandidate) (r : ScrapedPost) :
    step_opt analyze fmt source candidate = some r ↔
      ∃ analyzed, analyze candidate = .ok analyzed ∧ passes_filter analyzed ∧
        fmt analyzed source = .ok r := by
  unfold step_opt analyze_step
  cases h : analyze candidate with
  | error e => simp [h]
  | ok analyzed =>
    by_cases hp : passes_filter analyzed
    · cases hf : fmt analyzed source with
      | error e => simp [h, hp, hf]
      | ok p => simp [h, hp, hf]
    · simp [h, hp]

theorem mem_scrape_loop (analyze : SightingCandidate → Except String AnalyzedCandidate)
    (fmt : AnalyzedCandidate → String → Except String ScrapedPost)
    (source : String) (candidates : List SightingCandidate) (r : ScrapedPost) :
    r ∈ scrape_loop analyze fmt source candidates ↔
      ∃ c ∈ candidates, ∃ analyzed, analyze c = .ok analyzed ∧ passes_filter analyzed ∧
        fmt analyzed source = .ok r := by
  rw [scrape_loop_eq_filterMap]
  simp [List.mem_filterMap, step_opt_eq_some]

theorem scrape_loop_append (analyze : SightingCandidate → Except String AnalyzedCandidate)
    (fmt : AnalyzedCandidate → String → Except String ScrapedPost)
    (source : String) (l1 l2 : List SightingCandidate) :
    scrape_loop analyze fmt source (l1 ++ l2) =
      scrape_loop analyze fmt source l1 ++ scrape_loop analyze fmt source l2 := by
  simp [scrape_loop_eq_filterMap]

theorem scrape_loop_map (analyze : SightingCandidate → Except String AnalyzedCandidate)
    (source : String) (ana : SightingCandidate → AnalyzedCandidate) :
    ∀ l : List SightingCandidate,
      (∀ c ∈ l, analyze c = .ok (ana c)) →
      (∀ c ∈ l, passes_filter (ana c)) →
      scrape_loop analyze ok_formatter source l =
        l.map (fun c => candidate_to_scraped_post (ana c) source) := by
  intro l
  induction l with
  | nil => intro _ _; simp [scrape_loop]
  | cons c cs ih =>
    intro hok hpass
    have hc : step_opt analyze ok_formatter source c =
        some (candidate_to_scraped_post (ana c) source) := by
      rw [step_opt_eq_some]
      exact ⟨ana c, hok c (by simp), hpass c (by simp), rfl⟩
    have tail := ih (fun d hd => hok d (List.mem_cons_of_mem _ hd))
      (fun d hd => hpass d (List.mem_cons_of_mem _ hd))
    rw [scrape_loop_eq_filterMap] at tail ⊢
    simp [List.filterMap_cons, hc, tail]

/- ## Claim theorems -/

/-- C1: for every candidate successfully analyzed by the pipeline loop,
the corresponding formatted record appears in the output iff the
analysis's status is not REJECTED and its confidence score is at least
0.5; a candidate with confidence exactly 0.5 and a non-REJECTED status
is included. -/
theorem c1_threshold_law (analyze : SightingCandidate → Except String AnalyzedCandidate)
    (source : String) (candidates : List SightingCandidate) :
    (∀ r : ScrapedPost,
       r ∈ scrape_loop analyze ok_formatter source candidates ↔
         ∃ c ∈ candidates, ∃ analyzed, analyze c = .ok analyzed ∧
           0.5 ≤ analyzed.confidence_score ∧ analyzed.status ≠ "REJECTED" ∧
           r = candidate_to_scraped_post analyzed source)
    ∧ (∀ c ∈ candidates, ∀ analyzed, analyze c = .ok analyzed →
         analyzed.confidence_score = 0.5 → analyzed.status ≠ "REJECTED" →
         candidate_to_scraped_post analyzed source ∈
           scrape_loop analyze ok_formatter source candidates) := by
  have hmem : ∀ r : ScrapedPost,
      r ∈ scrape_loop analyze ok_formatter source candidates ↔
        ∃ c ∈ candidates, ∃ analyzed, analyze c = .ok analyzed ∧
          0.5 ≤ analyzed.confidence_score ∧ analyzed.status ≠ "REJECTED" ∧
          r = candidate_to_scraped_post analyzed source := by
    intro r
    rw [mem_scrape_loop]
    constructor
    · rintro ⟨c, hc, analyzed, ha, hp, hf⟩
      have hfr : candidate_to_scraped_post analyzed source = r := by
        simpa [ok_formatter] using hf
      exact ⟨c, hc, analyzed, ha, hp.1, hp.2, hfr.symm⟩
    · rintro ⟨c, hc, analyzed, ha, h05, hstat, hr⟩
      exact ⟨c, hc, analyzed, ha, ⟨h05, hstat⟩, by simp [ok_formatter, hr]⟩
  refine ⟨hmem, ?_⟩
  intro c hc analyzed ha h05 hstat
  exact (hmem _).mpr ⟨c, hc, analyzed, ha, by rw [h05], hstat, rfl⟩

/-- C1 witness: a single candidate analyzed at exactly confidence 0.5
with status CONFIRMED is included in the output. -/
theorem c1_threshold_law_witness :
    candidate_to_scraped_post
        ⟨⟨"reddit_abc123", "https://old.reddit.com/r/TeslaMotors/comments/xyz",
          some "alice", some "t", "body", ⟨none⟩, ⟨2024, 6, 1, 12, 30, 0⟩⟩,
         0.5, "CONFIRMED"⟩ "reddit" ∈
      scrape_loop
        (fun _ => .ok ⟨⟨"reddit_abc123",
          "https://old.reddit.com/r/TeslaMotors/comments/xyz",
          some "alice", some "t", "body", ⟨none⟩, ⟨2024, 6, 1, 12, 30, 0⟩⟩,
          0.5, "CONFIRMED"⟩)
        ok_formatter "reddit"
        [⟨"reddit_abc123", "https://old.reddit.com/r/TeslaMotors/comments/xyz",
          some "alice", some "t", "body", ⟨none⟩, ⟨2024, 6, 1, 12, 30, 0⟩⟩] :=
  (c1_threshold_law _ "reddit" _).2
    ⟨"reddit_abc123", "https://old.reddit.com/r/TeslaMotors/comments/xyz",
      some "alice", some "t", "body", ⟨none⟩, ⟨2024, 6, 1, 12, 30, 0⟩⟩
    (by simp)
    ⟨⟨"reddit_abc123", "https://old.reddit.com/r/TeslaMotors/comments/xyz",
      some "alice", some "t", "body", ⟨none⟩, ⟨2024, 6, 1, 12, 30, 0⟩⟩,
      0.5, "CONFIRMED"⟩
    rfl rfl (by decide : ("CONFIRMED" : String) ≠ "REJECTED")

/-- C2: if, out of the fetched batch, exactly one candidate raises
during classification and every other candidate is analyzed
successfully and passes the threshold, the loop's output is exactly the
ordered list of formatted records of the other candidates; the batch is
never aborted. -/
theorem c2_isolation (analyze : SightingCandidate → Except String AnalyzedCandidate)
    (ana : SightingCandidate → AnalyzedCandidate) (source msg : String)
    (pre post : List SightingCandidate) (bad : SightingCandidate)
    (hbad : analyze bad = .error msg)
    (hok : ∀ c ∈ pre ++ post, analyze c = .ok (ana c))
    (hpass : ∀ c ∈ pre ++ post, passes_filter (ana c)) :
    scrape_loop analyze ok_formatter source (pre ++ bad :: post) =
      (pre ++ post).map (fun c => candidate_to_scraped_post (ana c) source) := by
  have hmid : scrape_loop analyze ok_formatter source [bad] = [] := by
    simp [scrape_loop, analyze_step, hbad]
  have hsplit : pre ++ bad :: post = pre ++ [bad] ++ post := by simp
  rw [hsplit, scrape_loop_append, scrape_loop_append, hmid]
  rw [scrape_loop_map analyze source ana pre
        (fun c hc => hok c (by simp [hc])) (fun c hc => hpass c (by simp [hc])),
      scrape_loop_map analyze source ana post
        (fun c hc => hok c (by simp [hc])) (fun c hc => hpass c (by simp [hc]))]
  simp

/-- C2 witness: a three-candidate batch whose middle candidate raises
yields exactly the two formatted records of the other candidates. -/
theorem c2_isolation_witness :
    scrape_loop
        (fun c => if c.source_id = "reddit_b" then .error "boom"
                  else .ok ⟨c, 0.5, "CONFIRMED"⟩)
        ok_formatter "reddit"
        [⟨"reddit_a", "u1", none, none, "t1", ⟨none⟩, ⟨2024, 1, 1, 0, 0, 0⟩⟩,
         ⟨"reddit_b", "u2", none, none, "t2", ⟨none⟩, ⟨2024, 1, 1, 0, 0, 0⟩⟩,
         ⟨"reddit_c", "u3", none, none, "t3", ⟨none⟩, ⟨2024, 1, 1, 0, 0, 0⟩⟩] =
      [candidate_to_scraped_post
         ⟨⟨"reddit_a", "u1", none, none, "t1", ⟨none⟩, ⟨2024, 1, 1, 0, 0, 0⟩⟩,
          0.5, "CONFIRMED"⟩ "reddit",
       candidate_to_scraped_post
         ⟨⟨"reddit_c", "u3", none, none, "t3", ⟨none⟩, ⟨2024, 1, 1, 0, 0, 0⟩⟩,
          0.5, "CONFIRMED"⟩ "reddit"] :=
  c2_isolation
    (fun c => if c.source_id = "reddit_b" then .error "boom"
              else .ok ⟨c, 0.5, "CONFIRMED"⟩)
    (fun c => ⟨c, 0.5, "CONFIRMED"⟩) "reddit" "boom"
    [⟨"reddit_a", "u1", none, none, "t1", ⟨none⟩, ⟨2024, 1, 1, 0, 0, 0⟩⟩]
    [⟨"reddit_c", "u3", none, none, "t3", ⟨none⟩, ⟨2024, 1, 1, 0, 0, 0⟩⟩]
    ⟨"reddit_b", "u2", none, none, "t2", ⟨none⟩, ⟨2024, 1, 1, 0, 0, 0⟩⟩
    rfl
    (by
      intro c hc
      simp only [List.mem_append, List.mem_singleton] at hc
      rcases hc with h | h <;> subst h <;> rfl)
    (fun c _ => ⟨le_refl _, (by decide : ("CONFIRMED" : String) ≠ "REJECTED")⟩)

/-- C10: the per-candidate exception handler encloses the whole loop
body: an exception raised at any stage of a candidate's processing
(classifier call or formatter call; the threshold test and the list
append are pure in the embedding) drops only that candidate and the
batch continues; consequently every record in the output was produced
by a formatter call that completed without raising on a successfully
analyzed, threshold-passing candidate. -/
theorem c10_handler_scope (analyze : SightingCandidate → Except String AnalyzedCandidate)
    (fmt : AnalyzedCandidate → String → Except String ScrapedPost) (source : String) :
    (∀ (pre post : List SightingCandidate) (c : SightingCandidate) (msg : String),
       analyze_step analyze fmt source c = .error msg →
       scrape_loop analyze fmt source (pre ++ c :: post) =
         scrape_loop analyze fmt source pre ++ scrape_loop analyze fmt source post)
    ∧ (∀ (candidates : List SightingCandidate) (r : ScrapedPost),
       r ∈ scrape_loop analyze fmt source candidates →
       ∃ c ∈ candidates, ∃ analyzed, analyze c = .ok analyzed ∧
         passes_filter analyzed ∧ fmt analyzed source = .ok r) := by
  constructor
  · intro pre post c msg herr
    have hmid : scrape_loop analyze fmt source [c] = [] := by
      simp [scrape_loop, herr]
    have hsplit : pre ++ c :: post = pre ++ [c] ++ post := by simp
    rw [hsplit, scrape_loop_append, scrape_loop_append, hmid]
    simp
  · intro candidates r hr
    exact (mem_scrape_loop analyze fmt source candidates r).mp hr

/-- C10 witness: a candidate whose formatter call (not its classifier
call) raises is dropped while its neighbours survive. -/
theorem c10_handler_scope_witness :
    scrape_loop
        (fun c => .ok ⟨c, 0.5, "CONFIRMED"⟩)
        (fun analyzed source =>
          if analyzed.source_id = "reddit_b" then .error "format boom"
          else .ok (candidate_to_scraped_post analyzed source))
        "reddit"
        ([⟨"reddit_a", "u1", none, none, "t1", ⟨none⟩, ⟨2024, 1, 1, 0, 0, 0⟩⟩] ++
          ⟨"reddit_b", "u2", none, none, "t2", ⟨none⟩, ⟨2024, 1, 1, 0, 0, 0⟩⟩ ::
          [⟨"reddit_c", "u3", none, none, "t3", ⟨none⟩, ⟨2024, 1, 1, 0, 0, 0⟩⟩]) =
      scrape_loop
        (fun c => .ok ⟨c, 0.5, "CONFIRMED"⟩)
        (fun analyzed source =>
          if analyzed.source_id = "reddit_b" then .error "format boom"
          else .ok (candidate_to_scraped_post analyzed source))
        "reddit"
        [⟨"reddit_a", "u1", none, none, "t1", ⟨none⟩, ⟨2024, 1, 1, 0, 0, 0⟩⟩] ++
      scrape_loop
        (fun c => .ok ⟨c, 0.5, "CONFIRMED"⟩)
        (fun analyzed source =>
          if analyzed.source_id = "reddit_b" then .error "format boom"
          else .ok (candidate_to_scraped_post analyzed source))
        "reddit"
        [⟨"reddit_c", "u3", none, none, "t3", ⟨none⟩, ⟨2024, 1, 1, 0, 0, 0⟩⟩] :=
  (c10_handler_scope _ _ "reddit").1 _ _
    ⟨"reddit_b", "u2", none, none, "t2", ⟨none⟩, ⟨2024, 1, 1, 0, 0, 0⟩⟩
    "format boom"
    (by simp [analyze_step, passes_filter])

/-- C6: invoking the x path with a valid required configuration but
without the optional Google credentials (either one unconfigured, i.e.
empty) returns the empty list with success exit status: a graceful
no-op, not an error, regardless of the pollers and analyzer. -/
theorem c6_graceful_degradation (cfg : Config)
    (fetch_new_posts_since : Datetime → Except String (List SightingCandidate))
    (fetch_recent_posts : Nat → Except String (List SightingCandidate))
    (analyze : SightingCandidate → Except String AnalyzedCandidate)
    (since : Option Datetime)
    (hopenai : cfg.OPENAI_API_KEY ≠ "")
    (hgoogle : cfg.GOOGLE_API_KEY = "" ∨ cfg.GOOGLE_CSE_ID = "") :
    scrape_x cfg fetch_new_posts_since fetch_recent_posts analyze since = .ok [] ∧
    exit_code (scrape_x cfg fetch_new_posts_since fetch_recent_posts analyze since) = 0 := by
  have h : scrape_x cfg fetch_new_posts_since fetch_recent_posts analyze since = .ok [] := by
    unfold scrape_x Config.validate
    rw [if_neg hopenai, if_pos hgoogle]
  exact ⟨h, by rw [h]; rfl⟩

/-- C6 witness: an OpenAI key but no Google credentials yields the
empty success result even with an always-failing poller and analyzer. -/
theorem c6_graceful_degradation_witness :
    scrape_x ⟨"sk-test", "", ""⟩ (fun _ => .error "net") (fun _ => .error "net")
        (fun _ => .error "llm") none = .ok [] ∧
    exit_code (scrape_x ⟨"sk-test", "", ""⟩ (fun _ => .error "net") (fun _ => .error "net")
        (fun _ => .error "llm") none) = 0 :=
  c6_graceful_degradation ⟨"sk-test", "", ""⟩ (fun _ => .error "net") (fun _ => .error "net")
    (fun _ => .error "llm") none (by decide) (Or.inl rfl)

/-- C9: `scrape_x` calls `Config.validate` before checking the optional
Google credentials, so with OPENAI_API_KEY absent the x invocation
fails with the ValueError message (exit status 1) even when the Google
credentials are also absent; the empty-result degradation applies only
when OPENAI_API_KEY is present. -/
theorem c9_validate_before_degradation (cfg : Config)
    (fetch_new_posts_since : Datetime → Except String (List SightingCandidate))
    (fetch_recent_posts : Nat → Except String (List SightingCandidate))
    (analyze : SightingCandidate → Except String AnalyzedCandidate)
    (since : Option Datetime)
    (hopenai : cfg.OPENAI_API_KEY = "") :
    scrape_x cfg fetch_new_posts_since fetch_recent_posts analyze since =
      .error "OPENAI_API_KEY is required" ∧
    exit_code (scrape_x cfg fetch_new_posts_since fetch_recent_posts analyze since) = 1 := by
  have h : scrape_x cfg fetch_new_posts_since fetch_recent_posts analyze since =
      .error "OPENAI_API_KEY is required" := by
    unfold scrape_x Config.validate
    rw [if_pos hopenai]
  exact ⟨h, by rw [h]; rfl⟩

/-- C9 witness: with every credential absent the x invocation is the
configuration error, not the graceful empty result. -/
theorem c9_validate_before_degradation_witness :
    scrape_x ⟨"", "", ""⟩ (fun _ => .error "net") (fun _ => .error "net")
        (fun _ => .error "llm") none = .error "OPENAI_API_KEY is required" ∧
    exit_code (scrape_x ⟨"", "", ""⟩ (fun _ => .error "net") (fun _ => .error "net")
        (fun _ => .error "llm") none) = 1 :=
  c9_validate_before_degradation ⟨"", "", ""⟩ (fun _ => .error "net") (fun _ => .error "net")
    (fun _ => .error "llm") none rfl

/- ## Lemmas about the replace model -/

theorem pyReplaceDelAux_skip_ge (pat : List Char) :
    ∀ (l : List Char) (k : Nat), l.length ≤ k → pyReplaceDelAux pat k l = [] := by
  intro l
  induction l with
  | nil => intro k _; cases k <;> rfl
  | cons c cs ih =>
    intro k hk
    cases k with
    | zero => simp at hk
    | succ k => exact ih k (by simpa using hk)

theorem pyReplaceDelAux_skip_append (pat : List Char) :
    ∀ (l t : List Char), pyReplaceDelAux pat l.length (l ++ t) = pyReplaceDelAux pat 0 t := by
  intro l
  induction l with
  | nil => intro t; rfl
  | cons c cs ih => intro t; simpa using ih t

theorem pyReplaceDelAux_head_notin (p0 : Char) (rest : List Char) :
    ∀ (l t : List Char), p0 ∉ l →
      pyReplaceDelAux (p0 :: rest) 0 (l ++ t) = l ++ pyReplaceDelAux (p0 :: rest) 0 t := by
  intro l
  induction l with
  | nil => intro t _; rfl
  | cons c cs ih =>
    intro t hmem
    have hne : ¬(p0 :: rest).isPrefixOf (c :: (cs ++ t)) = true := by
      simp only [List.isPrefixOf]
      intro hand
      have : p0 = c := by
        have := (Bool.and_eq_true _ _).mp hand
        exact eq_of_beq this.1
      exact hmem (by simp [this])
    have htail : p0 ∉ cs := fun h => hmem (List.mem_cons_of_mem _ h)
    simp only [List.cons_append, pyReplaceDelAux]
    rw [if_neg (fun h => hne h.2)]
    simp only [List.append_eq]
    rw [ih t htail]

theorem pyReplaceDelAux_self_append (pat t : List Char) (h : pat ≠ []) :
    pyReplaceDelAux pat 0 (pat ++ t) = pyReplaceDelAux pat 0 t := by
  cases pat with
  | nil => exact absurd rfl h
  | cons p ps =>
    have hpre : (p :: ps).isPrefixOf ((p :: ps) ++ t) = true := by
      rw [List.isPrefixOf_iff_prefix]
      exact List.prefix_append _ _
    simp only [List.cons_append, pyReplaceDelAux]
    rw [if_pos ⟨h, by exact hpre⟩]
    simpa using pyReplaceDelAux_skip_append (p :: ps) ps t

theorem pyReplaceDelAux_no_occur (pat : List Char) :
    ∀ l : List Char, hasSub pat l = false → pyReplaceDelAux pat 0 l = l := by
  intro l
  induction l with
  | nil => intro _; rfl
  | cons c cs ih =>
    intro h
    simp only [hasSub, Bool.or_eq_false_iff] at h
    simp only [pyReplaceDelAux]
    rw [if_neg (fun hand => by rw [h.1] at hand; exact Bool.false_ne_true hand.2), ih h.2]

/-- C4 counterexample: the claim says only the leading source-type
prefix is removed, so `source_id = "reddit_reddit_abc"` (native ID
`"reddit_abc"`) should format to `sourceId = "reddit_abc"`; the code's
`str.replace` removes every occurrence and yields `"abc"`. -/
theorem c4_counterexample :
    (candidate_to_scraped_post
        ⟨⟨"reddit_reddit_abc", "u", none, none, "t", ⟨none⟩, ⟨2024, 1, 1, 0, 0, 0⟩⟩,
         0.5, "CONFIRMED"⟩ "reddit").sourceId = "abc" ∧
    ("abc" : String) ≠ "reddit_abc" :=
  ⟨rfl, by decide⟩

/-- C4 amended: the formatter outputs `sourceId` equal to `source_id`
with every occurrence of the substring `"<source_type>_"` removed;
whenever the native ID itself contains no occurrence of that substring,
this coincides with stripping the leading prefix, so
`"<source_type>_<native_id>"` formats to the bare native ID. -/
theorem c4_amended (source native : String) (a : AnalyzedCandidate)
    (hid : a.source_id = source ++ "_" ++ native)
    (hno : hasSub (source ++ "_").data native.data = false) :
    (candidate_to_scraped_post a source).sourceId = native := by
  have hdata : (source ++ "_" ++ native).data = (source ++ "_").data ++ native.data := by
    simp
  have hpat : (source ++ "_").data ≠ [] := by
    simp
  show pyStrReplaceDel a.source_id (source ++ "_") = native
  rw [hid]
  show (⟨pyReplaceDelAux (source ++ "_").data 0 (source ++ "_" ++ native).data⟩ : String) = native
  rw [hdata, pyReplaceDelAux_self_append _ _ hpat, pyReplaceDelAux_no_occur _ _ hno]

/-- C4 amended witness: the spec's own example still holds, since the
native ID `"abc123"` contains no occurrence of `"reddit_"`. -/
theorem c4_amended_witness :
    (candidate_to_scraped_post
        ⟨⟨"reddit_abc123", "u", none, none, "t", ⟨none⟩, ⟨2024, 1, 1, 0, 0, 0⟩⟩,
         0.5, "CONFIRMED"⟩ "reddit").sourceId = "abc123" :=
  c4_amended "reddit" "abc123"
    ⟨⟨"reddit_abc123", "u", none, none, "t", ⟨none⟩, ⟨2024, 1, 1, 0, 0, 0⟩⟩,
     0.5, "CONFIRMED"⟩ rfl (by decide)

/-- C8 counterexample: the claim says formatting a candidate with an
absent title (resp. author_username) is distinguishable from formatting
the otherwise-identical candidate with an empty-string title (resp.
author_username); Python's falsy `or` coalescing maps both to the same
default, so the two records are identical. -/
theorem c8_counterexample :
    candidate_to_scraped_post
        ⟨⟨"reddit_1", "u", some "alice", none, "t", ⟨none⟩, ⟨2024, 1, 1, 0, 0, 0⟩⟩,
         0.5, "CONFIRMED"⟩ "reddit" =
      candidate_to_scraped_post
        ⟨⟨"reddit_1", "u", some "alice", some "", "t", ⟨none⟩, ⟨2024, 1, 1, 0, 0, 0⟩⟩,
         0.5, "CONFIRMED"⟩ "reddit" ∧
    candidate_to_scraped_post
        ⟨⟨"reddit_1", "u", none, some "T", "t", ⟨none⟩, ⟨2024, 1, 1, 0, 0, 0⟩⟩,
         0.5, "CONFIRMED"⟩ "reddit" =
      candidate_to_scraped_post
        ⟨⟨"reddit_1", "u", some "", some "T", "t", ⟨none⟩, ⟨2024, 1, 1, 0, 0, 0⟩⟩,
         0.5, "CONFIRMED"⟩ "reddit" :=
  ⟨rfl, rfl⟩

/-- C8 amended: serialization does NOT distinguish absence from
field-empty for the optional text fields: an absent title maps to the
documented default `""` and an absent author_username to `"unknown"`,
and an empty-string title (resp. author_username) maps to the very same
defaults, so the two formattings are byte-identical. -/
theorem c8_amended (c : SightingCandidate) (score : ℚ) (status source : String) :
    (candidate_to_scraped_post ⟨{c with title := none}, score, status⟩ source).title = "" ∧
    (candidate_to_scraped_post
        ⟨{c with author_username := none}, score, status⟩ source).authorUsername = "unknown" ∧
    candidate_to_scraped_post ⟨{c with title := none}, score, status⟩ source =
      candidate_to_scraped_post ⟨{c with title := some ""}, score, status⟩ source ∧
    candidate_to_scraped_post ⟨{c with author_username := none}, score, status⟩ source =
      candidate_to_scraped_post ⟨{c with author_username := some ""}, score, status⟩ source :=
  ⟨rfl, rfl, rfl, rfl⟩

/-- One-position test for the output timestamp shape
`YYYY-MM-DDTHH:MM:SS` followed by exactly one `Z` (the character before
the final `Z` must itself be a digit, so the string does not end in two
of them). -/
def isIso8601UTCZChars : List Char → Bool
  | [y1, y2, y3, y4, p1, m1, m2, p2, d1, d2, pT, h1, h2, p3, n1, n2, p4, e1, e2, z] =>
    y1.isDigit && y2.isDigit && y3.isDigit && y4.isDigit && p1 == '-' &&
    m1.isDigit && m2.isDigit && p2 == '-' && d1.isDigit && d2.isDigit &&
    pT == 'T' && h1.isDigit && h2.isDigit && p3 == ':' && n1.isDigit && n2.isDigit &&
    p4 == ':' && e1.isDigit && e2.isDigit && z == 'Z'
  | _ => false

/-- Well-formedness of a `createdAt` value: a 20-character ISO-8601 UTC
timestamp ending in a single trailing `Z`. -/
def isIso8601UTCZ (s : String) : Bool :=
  isIso8601UTCZChars s.data

theorem digitChar_isDigit (n : Nat) : (digitChar n).isDigit = true := by
  have h : n % 10 < 10 := Nat.mod_lt _ (by norm_num)
  exact (by decide : ∀ r < 10, (Char.ofNat (48 + r)).isDigit = true) _ h

theorem isIso8601UTCZ_pyIsoformat (t : Datetime) :
    isIso8601UTCZ (pyIsoformat t ++ "Z") = true := by
  show isIso8601UTCZChars
    [digitChar (t.year / 1000), digitChar (t.year / 100),
     digitChar (t.year / 10), digitChar t.year, '-',
     digitChar (t.month / 10), digitChar t.month, '-',
     digitChar (t.day / 10), digitChar t.day, 'T',
     digitChar (t.hour / 10), digitChar t.hour, ':',
     digitChar (t.minute / 10), digitChar t.minute, ':',
     digitChar (t.sec / 10), digitChar t.sec, 'Z'] = true
  simp [isIso8601UTCZChars, digitChar_isDigit]

/-- C7: every output record's createdAt is the candidate's UTC
timestamp serialized as `isoformat()` plus `"Z"`, and it is a
well-formed ISO-8601 UTC timestamp string ending in a single trailing
`Z`. -/
theorem c7_created_at (a : AnalyzedCandidate) (source : String) :
    (candidate_to_scraped_post a source).createdAt =
      pyIsoformat a.timestamp_detected ++ "Z" ∧
    isIso8601UTCZ ((candidate_to_scraped_post a source).createdAt) = true :=
  ⟨rfl, isIso8601UTCZ_pyIsoformat a.timestamp_detected⟩

/- ## Lemmas about the since preprocessing -/

theorem dropWhile_no_strip (strip : Char) (l : List Char) (h : strip ∉ l) :
    l.dropWhile (fun c => c = strip) = l := by
  cases l with
  | nil => rfl
  | cons c cs =>
    rw [List.dropWhile_cons, if_neg]
    simp only [decide_eq_true_eq]
    intro hc
    exact h (by simp [hc])

theorem pyRstrip_of_notin (l : List Char) (h : 'Z' ∉ l) : pyRstrip 'Z' l = l := by
  unfold pyRstrip
  rw [dropWhile_no_strip 'Z' l.reverse (by simpa using h)]
  exact List.reverse_reverse l

theorem pyRstrip_append_Z (l : List Char) (h : 'Z' ∉ l) : pyRstrip 'Z' (l ++ ['Z']) = l := by
  unfold pyRstrip
  rw [List.reverse_append]
  show (('Z' :: l.reverse).dropWhile (fun c => c = 'Z')).reverse = l
  rw [List.dropWhile_cons, if_pos (by simp),
      dropWhile_no_strip 'Z' l.reverse (by simpa using h)]
  exact List.reverse_reverse l

theorem pyReplaceDel_id_of_no_plus (l : List Char) (hplus : '+' ∉ l) :
    pyReplaceDel l ("+00:00".data) = l := by
  show pyReplaceDelAux ('+' :: "00:00".data) 0 l = l
  have h := pyReplaceDelAux_head_notin '+' ("00:00".data) l [] hplus
  have h0 : pyReplaceDelAux ('+' :: "00:00".data) 0 ([] : List Char) = [] := rfl
  rw [h0, List.append_nil] at h
  simpa using h

theorem pyReplaceDel_strip_offset (l : List Char) (hplus : '+' ∉ l) :
    pyReplaceDel (l ++ "+00:00".data) ("+00:00".data) = l := by
  show pyReplaceDelAux ('+' :: "00:00".data) 0 (l ++ "+00:00".data) = l
  rw [pyReplaceDelAux_head_notin '+' ("00:00".data) l ("+00:00".data) hplus]
  have hself := pyReplaceDelAux_self_append ("+00:00".data) [] (by decide)
  simp only [List.append_nil] at hself
  rw [hself]
  have h0 : pyReplaceDelAux ('+' :: "00:00".data) 0 ([] : List Char) = [] := rfl
  rw [show ('+' :: "00:00".data) = "+00:00".data from rfl, h0, List.append_nil]

/-- C3: a `--since` value with a trailing `Z` and one with an explicit
`+00:00` offset are both accepted and normalized to the same UTC
instant (parsing the bare timestamp); an unparseable value makes
`parse_since` fall back to `None`, so the pipeline behaves exactly as
if `--since` were absent (recency-window fetch) instead of failing. -/
theorem c3_since_handling :
    (∀ s : String, 'Z' ∉ s.data → '+' ∉ s.data →
       parse_since (some (s ++ "Z")) = parse_since (some (s ++ "+00:00")) ∧
       parse_since (some (s ++ "Z")) = fromisoformat s)
    ∧ parse_since (some "2024-06-01T12:30:00Z") = some ⟨2024, 6, 1, 12, 30, 0⟩
    ∧ parse_since (some "2024-06-01T12:30:00+00:00") = some ⟨2024, 6, 1, 12, 30, 0⟩
    ∧ (∀ s : String, fromisoformat (pyStrReplaceDel (pyStrRstripZ s) "+00:00") = none →
         parse_since (some s) = none)
    ∧ (∀ (s : String) (cfg : Config)
         (fetch_new_posts_since : Datetime → Except String (List SightingCandidate))
         (fetch_recent_posts : Nat → String → Except String (List SightingCandidate))
         (analyze : SightingCandidate → Except String AnalyzedCandidate),
         fromisoformat (pyStrReplaceDel (pyStrRstripZ s) "+00:00") = none →
         scrape_reddit cfg fetch_new_posts_since fetch_recent_posts analyze
             (parse_since (some s)) =
           scrape_reddit cfg fetch_new_posts_since fetch_recent_posts analyze none) := by
  have hparse_none : ∀ s : String,
      fromisoformat (pyStrReplaceDel (pyStrRstripZ s) "+00:00") = none →
      parse_since (some s) = none := by
    intro s h
    show (if s = "" then none
          else fromisoformat (pyStrReplaceDel (pyStrRstripZ s) "+00:00")) = none
    by_cases hs : s = ""
    · rw [if_pos hs]
    · rw [if_neg hs, h]
  have hnorm : ∀ s : String, 'Z' ∉ s.data → '+' ∉ s.data →
      parse_since (some (s ++ "Z")) = parse_since (some (s ++ "+00:00")) ∧
      parse_since (some (s ++ "Z")) = fromisoformat s := by
    intro s hZ hplus
    have hZdata : (s ++ "Z").data = s.data ++ ['Z'] := by simp
    have hOdata : (s ++ "+00:00").data = s.data ++ "+00:00".data := by simp
    have hZne : s ++ "Z" ≠ "" := by
      intro h
      have := congrArg String.data h
      rw [hZdata] at this
      simp at this
    have hOne : s ++ "+00:00" ≠ "" := by
      intro h
      have := congrArg String.data h
      rw [hOdata] at this
      simp at this
    have hside1 : pyStrReplaceDel (pyStrRstripZ (s ++ "Z")) "+00:00" = s := by
      show (⟨pyReplaceDel (pyRstrip 'Z' (s ++ "Z").data) "+00:00".data⟩ : String) = s
      rw [hZdata, pyRstrip_append_Z s.data hZ, pyReplaceDel_id_of_no_plus s.data hplus]
    have hside2 : pyStrReplaceDel (pyStrRstripZ (s ++ "+00:00")) "+00:00" = s := by
      show (⟨pyReplaceDel (pyRstrip 'Z' (s ++ "+00:00").data) "+00:00".data⟩ : String) = s
      have hZO : 'Z' ∉ s.data ++ "+00:00".data := by
        intro hmem
        rcases List.mem_append.mp hmem with h | h
        · exact hZ h
        · revert h; decide
      rw [hOdata, pyRstrip_of_notin _ hZO, pyReplaceDel_strip_offset s.data hplus]
    have e1 : parse_since (some (s ++ "Z")) = fromisoformat s := by
      show (if s ++ "Z" = "" then none
            else fromisoformat (pyStrReplaceDel (pyStrRstripZ (s ++ "Z")) "+00:00")) =
        fromisoformat s
      rw [if_neg hZne, hside1]
    have e2 : parse_since (some (s ++ "+00:00")) = fromisoformat s := by
      show (if s ++ "+00:00" = "" then none
            else fromisoformat (pyStrReplaceDel (pyStrRstripZ (s ++ "+00:00")) "+00:00")) =
        fromisoformat s
      rw [if_neg hOne, hside2]
    exact ⟨e1.trans e2.symm, e1⟩
  refine ⟨hnorm, by decide, by decide, hparse_none, ?_⟩
  intro s cfg fs fr an h
  rw [hparse_none s h]

/-- C3 witness: the two concrete spellings of the same instant parse
identically, and a junk since value leaves the pipeline exactly in the
absent-watermark (recency fetch) behaviour. -/
theorem c3_since_handling_witness :
    parse_since (some ("2024-06-01T12:30:00" ++ "Z")) =
      parse_since (some ("2024-06-01T12:30:00" ++ "+00:00")) ∧
    scrape_reddit ⟨"sk-test", "", ""⟩ (fun _ => .ok []) (fun _ _ => .ok [])
        (fun _ => .error "llm") (parse_since (some "not-a-date")) =
      scrape_reddit ⟨"sk-test", "", ""⟩ (fun _ => .ok []) (fun _ _ => .ok [])
        (fun _ => .error "llm") none :=
  ⟨(c3_since_handling.1 "2024-06-01T12:30:00" (by decide) (by decide)).1,
   c3_since_handling.2.2.2.2 "not-a-date" ⟨"sk-test", "", ""⟩ (fun _ => .ok [])
     (fun _ _ => .ok []) (fun _ => .error "llm") (by decide)⟩

/- ## Lemmas about subreddit extraction -/

theorem subreddit_of_parts_cons (p : List Char) (ps : List (List Char)) :
    subreddit_of_parts (p :: ps) = if p = ['r'] then ps.head? else subreddit_of_parts ps := by
  by_cases hp : p = ['r']
  · subst hp
    rw [if_pos rfl]
    unfold subreddit_of_parts
    rw [if_pos (List.mem_cons_self _ _)]
    cases ps with
    | nil => simp [py_index]
    | cons q qs => simp [py_index]
  · rw [if_neg hp]
    unfold subreddit_of_parts
    have hidx : py_index ['r'] (p :: ps) = py_index ['r'] ps + 1 := by
      simp [py_index, hp]
    by_cases hm : ['r'] ∈ ps
    · rw [if_pos (List.mem_cons_of_mem _ hm), if_pos hm, hidx]
      by_cases hlt : py_index ['r'] ps + 1 < ps.length
      · rw [dif_pos hlt, dif_pos (by simpa using Nat.succ_lt_succ hlt)]
        rfl
      · rw [dif_neg hlt, dif_neg (by simpa using fun h => hlt (Nat.lt_of_succ_lt_succ h))]
    · rw [if_neg hm, if_neg]
      intro hmem
      rcases List.mem_cons.mp hmem with h | h
      · exact hp h.symm
      · exact hm h

theorem subreddit_of_parts_spec (w : List Char) :
    ∀ parts : List (List Char),
      subreddit_of_parts parts = some w ↔
        ∃ pre rest, parts = pre ++ ['r'] :: w :: rest ∧ ['r'] ∉ pre := by
  intro parts
  induction parts with
  | nil =>
    constructor
    · intro h; exact absurd h (by simp [subreddit_of_parts])
    · rintro ⟨pre, rest, h, -⟩; exact absurd h (by simp)
  | cons p ps ih =>
    rw [subreddit_of_parts_cons]
    by_cases hp : p = ['r']
    · subst hp
      rw [if_pos rfl]
      constructor
      · intro h
        obtain ⟨rest, hrest⟩ : ∃ rest, ps = w :: rest := by
          cases ps with
          | nil => simp at h
          | cons q qs =>
            simp only [List.head?_cons, Option.some.injEq] at h
            exact ⟨qs, by rw [h]⟩
        exact ⟨[], rest, by simp [hrest], by simp⟩
      · rintro ⟨pre, rest, heq, hpre⟩
        cases pre with
        | nil =>
          simp only [List.nil_append, List.cons.injEq] at heq
          rw [heq.2]
          rfl
        | cons a pre' =>
          have ha : a = ['r'] := by
            simp only [List.cons_append, List.cons.injEq] at heq
            exact heq.1.symm
          exact absurd (by simp [ha]) hpre
    · rw [if_neg hp, ih]
      constructor
      · rintro ⟨pre, rest, heq, hpre⟩
        refine ⟨p :: pre, rest, by rw [heq]; rfl, ?_⟩
        intro hm
        rcases List.mem_cons.mp hm with h | h
        · exact hp h.symm
        · exact hpre h
      · rintro ⟨pre, rest, heq, hpre⟩
        cases pre with
        | nil =>
          simp only [List.nil_append, List.cons.injEq] at heq
          exact absurd heq.1 hp
        | cons a pre' =>
          simp only [List.cons_append, List.cons.injEq] at heq
          exact ⟨pre', rest, heq.2, fun hm => hpre (List.mem_cons_of_mem _ hm)⟩

theorem py_truthy_opt_ne_empty (o : Option String) : py_truthy_opt o ≠ some "" := by
  cases o with
  | none => simp [py_truthy_opt]
  | some s =>
    by_cases hs : s = "" <;> simp [py_truthy_opt, hs]

theorem formatter_subreddit_empty_url (a : AnalyzedCandidate) (hurl : a.source_url = "") :
    (candidate_to_scraped_post a "reddit").subreddit = none := by
  show py_truthy_opt
      (if "reddit" = "reddit" ∧ a.source_url ≠ "" then
        match subreddit_of_parts (pySplit '/' a.source_url.data) with
        | some l => some (⟨l⟩ : String)
        | none => none
      else none) = none
  rw [if_neg (fun h => h.2 hurl)]
  rfl

theorem formatter_subreddit_eq (a : AnalyzedCandidate) (hurl : a.source_url ≠ "") :
    (candidate_to_scraped_post a "reddit").subreddit =
      py_truthy_opt ((subreddit_of_parts (pySplit '/' a.source_url.data)).map
        (fun l => (⟨l⟩ : String))) := by
  show py_truthy_opt
      (if "reddit" = "reddit" ∧ a.source_url ≠ "" then
        match subreddit_of_parts (pySplit '/' a.source_url.data) with
        | some l => some (⟨l⟩ : String)
        | none => none
      else none) = _
  rw [if_pos ⟨rfl, hurl⟩]
  cases subreddit_of_parts (pySplit '/' a.source_url.data) <;> rfl

/-- C5: for every reddit candidate, the formatted record carries the
subreddit key with value `v` exactly when `v` is the nonempty URL path
segment immediately following the first literal `"r"` component of
`source_url`; in every other case (no `"r"` component, no following
segment, empty segment, empty URL) the key is entirely absent (`none`),
never the empty string, and the spec's example URL yields
`"TeslaMotors"`. -/
theorem c5_subreddit_extraction (a : AnalyzedCandidate) :
    (∀ v : String,
       (candidate_to_scraped_post a "reddit").subreddit = some v ↔
         (v ≠ "" ∧ ∃ pre rest,
            pySplit '/' a.source_url.data = pre ++ ['r'] :: v.data :: rest ∧ ['r'] ∉ pre))
    ∧ (candidate_to_scraped_post a "reddit").subreddit ≠ some ""
    ∧ (a.source_url = "https://old.reddit.com/r/TeslaMotors/comments/xyz" →
        (candidate_to_scraped_post a "reddit").subreddit = some "TeslaMotors") := by
  refine ⟨?_, ?_, ?_⟩
  · intro v
    by_cases hurl : a.source_url = ""
    · rw [formatter_subreddit_empty_url a hurl]
      constructor
      · intro h; exact absurd h (by simp)
      · rintro ⟨-, pre, rest, heq, -⟩
        have hdata : a.source_url.data = [] := by rw [hurl]
        rw [hdata] at heq
        have := congrArg List.length heq
        simp [pySplit] at this
        omega
    · rw [formatter_subreddit_eq a hurl]
      cases hsp : subreddit_of_parts (pySplit '/' a.source_url.data) with
      | none =>
        constructor
        · intro h; exact absurd h (by simp [py_truthy_opt])
        · rintro ⟨hv, pre, rest, heq, hpre⟩
          have : subreddit_of_parts (pySplit '/' a.source_url.data) = some v.data :=
            (subreddit_of_parts_spec v.data _).mpr ⟨pre, rest, heq, hpre⟩
          rw [hsp] at this
          exact absurd this (by simp)
      | some l =>
        by_cases hl : l = []
        · subst hl
          constructor
          · intro h
            exact absurd h (by simp [py_truthy_opt])
          · rintro ⟨hv, pre, rest, heq, hpre⟩
            have hsome : subreddit_of_parts (pySplit '/' a.source_url.data) = some v.data :=
              (subreddit_of_parts_spec v.data _).mpr ⟨pre, rest, heq, hpre⟩
            rw [hsp] at hsome
            have hvd : v.data = [] := by simpa using hsome.symm
            have hveq : v = "" := by
              cases v with
              | mk data =>
                rw [show data = [] from hvd]
            exact absurd hveq hv
        · have hlstr : (⟨l⟩ : String) ≠ "" := by
            intro h
            exact hl (by simpa using congrArg String.data h)
          constructor
          · intro h
            have hv : (⟨l⟩ : String) = v := by
              simpa [py_truthy_opt, hlstr] using h
            refine ⟨by rw [← hv]; exact hlstr, ?_⟩
            have hvd : v.data = l := by rw [← hv]
            rw [hvd]
            exact (subreddit_of_parts_spec l _).mp hsp
          · rintro ⟨hv, pre, rest, heq, hpre⟩
            have hsome : subreddit_of_parts (pySplit '/' a.source_url.data) = some v.data :=
              (subreddit_of_parts_spec v.data _).mpr ⟨pre, rest, heq, hpre⟩
            rw [hsp] at hsome
            have hvl : l = v.data := by simpa using hsome
            have hlv : (⟨l⟩ : String) = v := by
              cases v with
              | mk data => exact congrArg String.mk hvl
            have hfinal : py_truthy_opt (some (⟨l⟩ : String)) = some (⟨l⟩ : String) := by
              simp [py_truthy_opt, hlstr]
            show py_truthy_opt (some (⟨l⟩ : String)) = some v
            rw [hfinal, hlv]
  · by_cases hurl : a.source_url = ""
    · rw [formatter_subreddit_empty_url a hurl]
      simp
    · rw [formatter_subreddit_eq a hurl]
      exact py_truthy_opt_ne_empty _
  · intro hurl
    rw [formatter_subreddit_eq a (by rw [hurl]; decide), hurl]
    decide

/-- C5 witness: the spec's example URL formats with
`subreddit = "TeslaMotors"`. -/
theorem c5_subreddit_extraction_witness :
    (candidate_to_scraped_post
        ⟨⟨"reddit_abc", "https://old.reddit.com/r/TeslaMotors/comments/xyz", none, none,
          "t", ⟨none⟩, ⟨2024, 1, 1, 0, 0, 0⟩⟩, 0.5, "CONFIRMED"⟩ "reddit").subreddit =
      some "TeslaMotors" :=
  (c5_subreddit_extraction
    ⟨⟨"reddit_abc", "https://old.reddit.com/r/TeslaMotors/comments/xyz", none, none,
      "t", ⟨none⟩, ⟨2024, 1, 1, 0, 0, 0⟩⟩, 0.5, "CONFIRMED"⟩).2.2 rfl
